import Mathlib

/-!
Verification of the multi-page UPSC answer reconciliation pipeline.

Shallow embedding of the core of the repository:
* `src/app/service_log/combine_answer.py` — the layered JSON-recovery parser
  (`clean_markdown_json`, `parse_json_block`) and the service-side merge
  (`merge_json_blocks`), used by `main.py`.
* `src/app/graph/agents.py` — the graph-side merge (`merge_json_blocks`),
  the verification agent (`data_verification_agent`) and the formatter agent
  (`data_formatter_agent`), used by the LangGraph workflow in
  `src/app/graph/graph.py` (`decide_next_step`, the compiled state machine).

Modelling conventions:
* A parsed per-page JSON object is modelled by the record `Block`, holding the
  six keys the pipeline ever reads (`question`, `answer`, `feedback`,
  `word_limit`, `maximum_marks`, `total_marks`); a Python dict key that is
  absent is `none`.  An object with none of the recognized keys is modelled by
  `Block.empty` (and, like Python's empty dict, is falsy).
* Python stdlib calls that the code treats as black boxes (`json.loads`, the
  `re.search` field extractors, the single-quote `re.sub` repair) are passed in
  as explicit function parameters (`Stdlib`), so every theorem quantifies over
  their behaviour; the surrounding control flow is transcribed from the source.
* Machine strings are Lean `String`s (Python `str` of unicode codepoints);
  `len`/slicing agree with `String.length`/`String.take` on codepoints.
* Python truthiness: a string is truthy iff non-empty, an int iff non-zero,
  a list/dict iff non-empty.
-/

/-- A parsed per-page JSON record: the Python dict restricted to the six keys
the pipeline reads.  `none` models an absent key. -/
structure Block where
  question : Option String := none
  answer : Option String := none
  feedback : Option (List (List String)) := none
  word_limit : Option Int := none
  maximum_marks : Option Int := none
  total_marks : Option String := none
deriving DecidableEq, Repr

/-- The dict with none of the recognized keys (Python `{}` in the modelled
universe of answer-record objects). -/
def Block.empty : Block := {}

/-- Python truthiness of a string: non-empty. -/
def truthyStr (s : String) : Bool := s ≠ ""

/-- Python truthiness of an integer: non-zero. -/
def truthyInt (n : Int) : Bool := n ≠ 0

namespace CombineAnswer

/-- One scan step of `re.sub(r'```json|```', '', raw_str, flags=re.IGNORECASE)`
from `clean_markdown_json` (combine_answer.py line 15): at each position the
regex first tries to match the 7-character alternative case-insensitively,
then the 3-character one, else leaves the character and advances. -/
def stripFences : List Char → List Char
  | b1 :: b2 :: b3 :: c4 :: c5 :: c6 :: c7 :: rest =>
    if [b1, b2, b3] = "```".data ∧ ([c4, c5, c6, c7].map Char.toLower) = "json".data then
      stripFences rest
    else if [b1, b2, b3] = "```".data then
      stripFences (c4 :: c5 :: c6 :: c7 :: rest)
    else
      b1 :: stripFences (b2 :: b3 :: c4 :: c5 :: c6 :: c7 :: rest)
  | b1 :: b2 :: b3 :: rest =>
    if [b1, b2, b3] = "```".data then stripFences rest
    else b1 :: stripFences (b2 :: b3 :: rest)
  | c :: rest => c :: stripFences rest
  | [] => []

/-- Python `str.strip()`: drop whitespace from both ends. -/
def pyStrip (l : List Char) : List Char :=
  ((l.dropWhile Char.isWhitespace).reverse.dropWhile Char.isWhitespace).reverse

/-- combine_answer.py `clean_markdown_json`: remove markdown code-fence
markers, then strip surrounding whitespace. -/
def clean_markdown_json (raw_str : String) : String :=
  String.mk (pyStrip (stripFences raw_str.data))

/-- The Python-stdlib text machinery `parse_json_block` delegates to, passed in
explicitly: `jsonLoads` is `json.loads` (restricted to answer-record objects,
`none` = `JSONDecodeError`), `fixQuotes` is the tier-2 single-quoted-key
`re.sub` repair, and the `search*` functions are the tier-3 `re.search` field
extractors of combine_answer.py lines 53-89 (`none` = no match). -/
structure Stdlib where
  jsonLoads : String → Option Block
  fixQuotes : String → String
  searchQuestion : String → Option String
  searchAnswer : String → Option String
  searchWordLimit : String → Option Int
  searchMaxMarks : String → Option Int
  searchTotalMarks : String → Option String
  searchFeedback : String → Option (List (List String))

/-- combine_answer.py `parse_json_block`: tier 1 strict parse of the cleaned
string, tier 2 parse after single-quote repair, tier 3 independent regex field
extraction, reported successful only when `answer` or `question` was found. -/
def parse_json_block (std : Stdlib) (block_str : String) : Option Block :=
  let clean_str := clean_markdown_json block_str
  match std.jsonLoads clean_str with
  | some j => some j
  | none =>
    match std.jsonLoads (std.fixQuotes clean_str) with
    | some j => some j
    | none =>
      let result : Block :=
        { question := std.searchQuestion clean_str
          answer := std.searchAnswer clean_str
          word_limit := std.searchWordLimit clean_str
          maximum_marks := std.searchMaxMarks clean_str
          total_marks := std.searchTotalMarks clean_str
          feedback := std.searchFeedback clean_str }
      if result.answer.isSome || result.question.isSome then some result else none

/-- The forward scan of combine_answer.py lines 134-136: assign
`block["question"]` whenever the key is present and the accumulator is still
falsy (empty). -/
def scanQuestion (blocks : List Block) : String :=
  blocks.foldl
    (fun q b => if b.question.isSome && !(truthyStr q) then b.question.getD "" else q) ""

/-- The forward scan of combine_answer.py lines 137-140 for the integer fields
(`word_limit`, `maximum_marks`): the accumulator starts at the falsy `""`
(modelled `none`) and is assigned whenever the key is present and the
accumulator is still falsy (`""` or `0`). -/
def scanOptInt (get : Block → Option Int) (blocks : List Block) : Option Int :=
  blocks.foldl
    (fun acc b => if (get b).isSome && ((acc.getD 0) = 0) then get b else acc) none

/-- The backward scan with break of combine_answer.py lines 144-147, applied to
the already-reversed list: return the `total_marks` value of the first record
that has the key at all. -/
def findTotal : List Block → String
  | [] => ""
  | b :: bs =>
    match b.total_marks with
    | some v => v
    | none => findTotal bs

/-- combine_answer.py lines 143-150: scan backward for a record with the
`total_marks` key; if the resulting value is falsy, default to `"0/0"`. -/
def final_total_marks (blocks : List Block) : String :=
  let v := findTotal blocks.reverse
  if truthyStr v then v else "0/0"

/-- One element of the `answer` list in the merged output:
`{"text": <joined answers>}`. -/
structure AnswerItem where
  text : String
deriving DecidableEq, Repr

/-- The merged output dict of combine_answer.py lines 164-171.  Every field is
always materialized in the dict literal; `word_limit`/`maximum_marks` are
`none` exactly when the Python value is still the initial `""` placeholder. -/
structure CombineMerged where
  question : String
  word_limit : Option Int
  maximum_marks : Option Int
  answer : List AnswerItem
  feedback : List (List String)
  total_marks : String
deriving DecidableEq, Repr

/-- combine_answer.py lines 129-175: merge a list of successfully parsed
blocks into the final output dict. -/
def merge_parsed_blocks (parsed_blocks : List Block) : CombineMerged :=
  { question := scanQuestion parsed_blocks
    word_limit := scanOptInt Block.word_limit parsed_blocks
    maximum_marks := scanOptInt Block.maximum_marks parsed_blocks
    answer := [⟨String.intercalate "\n\n" (parsed_blocks.filterMap Block.answer)⟩]
    feedback := (parsed_blocks.filterMap Block.feedback).flatten
    total_marks := final_total_marks parsed_blocks }

/-- combine_answer.py `merge_json_blocks`: parse every input block, keep the
truthy results, raise `ValueError` (modelled `Except.error`) when none parsed,
else merge.  A parse result equal to the empty dict is falsy and dropped, as
in `if parsed:` (line 120). -/
def merge_json_blocks (std : Stdlib) (raw_inputs : List String) :
    Except String CombineMerged :=
  let parsed_blocks := raw_inputs.filterMap
    (fun block => (parse_json_block std block).bind
      (fun p => if p ≠ Block.empty then some p else none))
  if parsed_blocks.isEmpty then
    Except.error "No valid JSON blocks could be parsed."
  else
    Except.ok (merge_parsed_blocks parsed_blocks)

end CombineAnswer

namespace Agents

/-- The merged output dict of agents.py `merge_json_blocks` after the cleanup
pass (lines 388-396): `question`, `word_limit`, `maximum_marks` and
`total_marks` are popped from the dict when at their empty defaults, so they
are `Option`s (`none` = key popped); `answer` and `feedback` always remain. -/
structure AgentsMerged where
  question : Option String
  answer : String
  feedback : List (List String)
  word_limit : Option Int
  maximum_marks : Option Int
  total_marks : Option String
deriving DecidableEq, Repr

/-- The separator string agents.py line 381 inserts between page answers. -/
def NEXT_PAGE_SEP : String := "\n\n--- NEXT PAGE ---\n\n"

/-- One step of the answer-accumulation loop of agents.py lines 377-382:
append a truthy answer, preceded by the page separator when the accumulator is
already truthy. -/
def appendAnswer (acc : String) (output : Block) : String :=
  match output.answer with
  | some a =>
    if truthyStr a then (if truthyStr acc then acc ++ NEXT_PAGE_SEP else acc) ++ a
    else acc
  | none => acc

/-- agents.py `merge_json_blocks` on a non-empty list `first_page :: rest`:
first pass takes `question`/`word_limit`/`maximum_marks` from the first page
only (lines 362-369, the integer fields only when truthy), second pass takes
`total_marks` from the last page only when truthy (lines 371-374), third pass
concatenates answers and feedback across all pages (lines 376-386), and the
cleanup pass pops fields left at their empty defaults (lines 388-396). -/
def merge_core (first_page : Block) (rest : List Block) : AgentsMerged :=
  let json_outputs := first_page :: rest
  let last_page := rest.getLastD first_page
  let q : String := first_page.question.getD ""
  let wl : Int := match first_page.word_limit with
    | some v => if truthyInt v then v else 0
    | none => 0
  let mm : Int := match first_page.maximum_marks with
    | some v => if truthyInt v then v else 0
    | none => 0
  let tm : Option String := match last_page.total_marks with
    | some v => if truthyStr v then some v else none
    | none => none
  { question := if truthyStr q then some q else none
    answer := json_outputs.foldl appendAnswer ""
    feedback := (json_outputs.filterMap Block.feedback).flatten
    word_limit := if wl = 0 then none else some wl
    maximum_marks := if mm = 0 then none else some mm
    total_marks := tm }

/-- agents.py `merge_json_blocks` (lines 347-398): on an empty input list the
function returns the dict `{"error": "No outputs to merge"}` instead of a
merged record, modelled as `Except.error`. -/
def merge_json_blocks (json_outputs : List Block) : Except String AgentsMerged :=
  match json_outputs with
  | [] => Except.error "No outputs to merge"
  | b :: bs => Except.ok (merge_core b bs)

end Agents

namespace Agents

/-- The `formatted_data` payload: either a single parsed page record (the
single-page shortcut and the LLM fallback path of `data_formatter_agent`) or
the merged multi-page record. -/
inductive FormattedData where
  | page : Block → FormattedData
  | merged : AgentsMerged → FormattedData
deriving DecidableEq

/-- The LangGraph state `AgentState` of agents.py lines 28-36 (the `messages`
field is never read or written by the two agents and is omitted). -/
structure AgentState where
  ocr_texts : List String
  is_relevant : Bool
  has_valid_format : Bool
  formatted_data : Option FormattedData
  error : Option String
  status : String

/-- agents.py lines 179-192 inside `data_verification_agent`: when the
estimated token count (total characters ÷ 4) exceeds 100000, either keep only
the first, middle and last page (more than 3 pages) or truncate each page to
25000 characters. -/
def reduce_ocr_texts (ocr_texts : List String) : List String :=
  let total_text_length := (ocr_texts.map String.length).sum
  let estimated_tokens := total_text_length / 4
  if estimated_tokens > 100000 then
    if ocr_texts.length > 3 then
      let subset_indices := [0, ocr_texts.length / 2, ocr_texts.length - 1]
      subset_indices.map (fun i => ocr_texts.getD i "")
    else
      ocr_texts.map (fun text => text.take 25000)
  else
    ocr_texts

/-- agents.py lines 194-198: join the (reduced) pages, each capped at 25000
characters and tagged with its position, with the image-separation marker. -/
def combined_for_verification (texts : List String) : String :=
  String.intercalate "\n\n--- IMAGE SEPARATION ---\n\n"
    (texts.enum.map (fun p =>
      "[Image " ++ toString (p.1 + 1) ++ " of " ++ toString texts.length ++ "]\n"
        ++ p.2.take 25000))

/-- The verification dict parsed from the model response (agents.py lines
212-221); `none` models an absent key, read with `.get(_, False)`. -/
structure Verdict where
  is_relevant : Option Bool := none
  has_valid_format : Option Bool := none
  reason : Option String := none

/-- Outcome of `re.search(r'\x7b.*\x7d', content)` + `json.loads` on the
verification response: a parsed dict, no JSON-like match (which triggers the
substring heuristic), or an exception from `json.loads`. -/
inductive VerdictParse where
  | parsed : Verdict → VerdictParse
  | noJson : VerdictParse
  | raised : String → VerdictParse

/-- Whether `needle` occurs as a substring of `hay` (Python `needle in hay`). -/
def hasSub (needle : List Char) : List Char → Bool
  | [] => needle.isEmpty
  | c :: cs => needle.isPrefixOf (c :: cs) || hasSub needle cs

/-- Python `needle in content.lower()` for an ASCII-lowercase needle. -/
def inLower (needle content : String) : Bool :=
  hasSub needle.data (content.data.map Char.toLower)

/-- agents.py lines 217-221: the heuristic fallback verdict built from
substring tests on the lowercased response text. -/
def fallbackVerdict (content : String) : Verdict :=
  { is_relevant := some (inLower "relevant" content && !(inLower "not relevant" content))
    has_valid_format := some (inLower "valid format" content && !(inLower "invalid format" content))
    reason := some "Extracted from text content" }

/-- agents.py lines 226-233: store the two booleans (`.get` with default
`False`) and set the status — `"verified"` only when both are true, else
`"failed_verification"` with the verdict's reason as error. -/
def applyVerdict (state : AgentState) (v : Verdict) : AgentState :=
  let r := v.is_relevant.getD false
  let f := v.has_valid_format.getD false
  let st := { state with is_relevant := r, has_valid_format := f }
  if !r || !f then
    { st with status := "failed_verification"
              error := some (v.reason.getD "Failed verification check") }
  else
    { st with status := "verified" }

/-- agents.py lines 207-239: interpret the model's response.  A non-string
`response.content` (`resp = none`) yields the fixed all-false verdict (line
223); otherwise the parsed JSON verdict is applied when `re.search` +
`json.loads` succeed, the substring heuristic when no JSON-like match exists,
and the `except` branch (false/false, `"Verification processing error: ..."`)
when `json.loads` raised. -/
def verification_outcome (verdictParse : String → VerdictParse) (state : AgentState)
    (resp : Option String) : AgentState :=
  match resp with
  | none =>
    applyVerdict state
      { is_relevant := some false, has_valid_format := some false,
        reason := some "Invalid LLM response" }
  | some content =>
    match verdictParse content with
    | .parsed v => applyVerdict state v
    | .noJson => applyVerdict state (fallbackVerdict content)
    | .raised e =>
      { state with is_relevant := false, has_valid_format := false,
                   error := some ("Verification processing error: " ++ e),
                   status := "failed_verification" }

/-- agents.py `data_verification_agent` (lines 168-241).  External behaviour
is passed in: `llmVerify` is the model call on the combined OCR payload
(returning `none` when `response.content` is not a string), `verdictParse` is
the `re.search` + `json.loads` pipeline on the response.  The second component
counts model invocations. -/
def data_verification_agent (llmVerify : String → Option String)
    (verdictParse : String → VerdictParse) (state : AgentState) :
    AgentState × Nat :=
  let ocr_texts := state.ocr_texts
  if ocr_texts.isEmpty then
    ({ state with is_relevant := false, has_valid_format := false,
                  error := some "No OCR text provided.",
                  status := "failed_verification" }, 0)
  else
    let texts := reduce_ocr_texts ocr_texts
    let combined_text := combined_for_verification texts
    (verification_outcome verdictParse state (llmVerify combined_text), 1)

/-- agents.py lines 254-267: the single-page shortcut — when exactly one page
is supplied and `re.search(r'\x7b.*\x7d')` + `json.loads` on it yields a record
with all of `question`, `answer`, `feedback` present, return that record. -/
def singleShortcut (extractJson : String → Option Block)
    (ocr_texts : List String) : Option Block :=
  match ocr_texts with
  | [t] =>
    match extractJson t with
    | some formatted_data =>
      if formatted_data.question.isSome && formatted_data.answer.isSome
          && formatted_data.feedback.isSome then
        some formatted_data
      else none
    | none => none
  | _ => none

/-- agents.py lines 273-297: for several pages, extract a JSON block from each
page (a page with no parseable block becomes the `{"text": ..., "index": idx}`
marker dict, here `Sum.inr`); when every element passes the
`not result.get('index', None)` check (which a marker dict with index 0 also
passes), merge.  A marker dict has none of the six merge keys, so it enters
the merge as the empty record. -/
def multiMerge (extractJson : String → Option Block)
    (ocr_texts : List String) : Option AgentsMerged :=
  if ocr_texts.length > 1 then
    let json_results : List (Block ⊕ (String × Nat)) :=
      ocr_texts.enum.map (fun p =>
        match extractJson p.2 with
        | some j => Sum.inl j
        | none => Sum.inr (p.2, p.1))
    let passes : Block ⊕ (String × Nat) → Bool :=
      fun r => match r with
        | Sum.inl _ => true
        | Sum.inr q => q.2 = 0
    if !json_results.isEmpty && json_results.all passes then
      match merge_json_blocks (json_results.map (fun r =>
        match r with
        | Sum.inl b => b
        | Sum.inr _ => Block.empty)) with
      | Except.ok m => some m
      | Except.error _ => none
    else none
  else none

/-- agents.py lines 327-334: fill in defaults for the `UPSC_DATA_FORMAT` keys
missing from the LLM response (`word_limit` 150, `maximum_marks` 10; the other
missing keys are set to `None`, i.e. stay absent). -/
def apply_format_defaults (b : Block) : Block :=
  { b with word_limit := some (b.word_limit.getD 150)
           maximum_marks := some (b.maximum_marks.getD 10) }

/-- agents.py `data_formatter_agent` (lines 244-344).  `extractJson` is the
`re.search(r'\x7b.*\x7d', ...)` + `json.loads` extraction applied to a page,
`contentParse` is the same extraction applied to the fallback LLM response
(`none` = no match or `json.loads` raised, which lands in the `except`
branch), `llmFormat` is the model call on the joined OCR payload (`none` =
non-string `response.content`).  The second component counts model calls. -/
def data_formatter_agent (extractJson contentParse : String → Option Block)
    (llmFormat : String → Option String) (state : AgentState) :
    AgentState × Nat :=
  let ocr_texts := state.ocr_texts
  if !state.is_relevant || !state.has_valid_format then
    ({ state with status := "skipped_formatting" }, 0)
  else
    match singleShortcut extractJson ocr_texts with
    | some formatted_data =>
      ({ state with formatted_data := some (.page formatted_data),
                    status := "formatted" }, 0)
    | none =>
      match multiMerge extractJson ocr_texts with
      | some merged_result =>
        ({ state with formatted_data := some (.merged merged_result),
                      status := "formatted" }, 0)
      | none =>
        let formatted_ocr := String.intercalate "\n\n--- IMAGE SEPARATION ---\n\n"
          (ocr_texts.enum.map (fun p =>
            "[Image " ++ toString (p.1 + 1) ++ " of " ++ toString ocr_texts.length
              ++ "]\n" ++ p.2))
        match llmFormat formatted_ocr with
        | none =>
          ({ state with error := some "Formatting error: Invalid LLM response format",
                        status := "failed_formatting", formatted_data := none }, 1)
        | some content =>
          match contentParse content with
          | none =>
            ({ state with error := some "Formatting error: could not parse response",
                          status := "failed_formatting", formatted_data := none }, 1)
          | some formatted_data =>
            ({ state with
                formatted_data := some (.page (apply_format_defaults formatted_data)),
                status := "formatted" }, 1)

end Agents

namespace Graph

open Agents

/-- graph.py `decide_next_step` (lines 24-34): route to the formatter exactly
when the status is `"verified"`, otherwise end. -/
def decide_next_step (state : AgentState) : String :=
  let status := state.status
  if status = "verified" then "data_formatter"
  else if status = "failed_verification" ∨ status = "failed_formatting"
      ∨ status = "formatted" then "end"
  else "end"

/-- graph.py `create_upsc_formatting_workflow` (lines 37-70), compiled and
invoked: entry at `data_verification`, conditional edge to `data_formatter`
or `END`, then `END`.  Returns the terminal state and the number of model
calls issued. -/
def run_workflow (llmVerify : String → Option String)
    (verdictParse : String → VerdictParse)
    (extractJson contentParse : String → Option Block)
    (llmFormat : String → Option String) (state : AgentState) :
    AgentState × Nat :=
  let v := data_verification_agent llmVerify verdictParse state
  if decide_next_step v.1 = "data_formatter" then
    let f := data_formatter_agent extractJson contentParse llmFormat v.1
    (f.1, v.2 + f.2)
  else
    v

end Graph

/-! Spec-side comparison definitions and concrete instances used by the
theorems and their witnesses. -/

/-- Concatenation of a list of strings with `sep` between consecutive
elements (the spec's "joined by the explicit separator"). -/
def joinSep (sep : String) : List String → String
  | [] => ""
  | [a] => a
  | a :: b :: rest => a ++ sep ++ joinSep sep (b :: rest)

/-- The non-empty answer texts of a record sequence, in forward order. -/
def neAnswers (blocks : List Block) : List String :=
  blocks.filterMap (fun b => b.answer.bind (fun a => if truthyStr a then some a else none))

/-- A stub stdlib whose `json.loads` recognizes exactly the two page payloads
`"pageA"`/`"pageB"` (answer-only records), as a real `json.loads` would on the
corresponding JSON texts; every regex extractor finds nothing. -/
def stdAB : CombineAnswer.Stdlib :=
  { jsonLoads := fun s =>
      if s = "pageA" then some { answer := some "A" }
      else if s = "pageB" then some { answer := some "B" }
      else none
    fixQuotes := id
    searchQuestion := fun _ => none
    searchAnswer := fun _ => none
    searchWordLimit := fun _ => none
    searchMaxMarks := fun _ => none
    searchTotalMarks := fun _ => none
    searchFeedback := fun _ => none }

/-- A stub stdlib on which every parsing attempt fails, as `json.loads` and
the regex extractors do on text containing no JSON and no recognized field. -/
def stdNone : CombineAnswer.Stdlib :=
  { jsonLoads := fun _ => none
    fixQuotes := id
    searchQuestion := fun _ => none
    searchAnswer := fun _ => none
    searchWordLimit := fun _ => none
    searchMaxMarks := fun _ => none
    searchTotalMarks := fun _ => none
    searchFeedback := fun _ => none }

/-- The answer-only record `\x7b"answer": "A"\x7d`. -/
def blockA : Block := { answer := some "A" }

/-- A stdlib whose `json.loads` decodes the JSON text `\x7b"answer": "A"\x7d`
to `blockA`, used to exercise the tier-1 round trip. -/
def stdTier1 : CombineAnswer.Stdlib :=
  { jsonLoads := fun s =>
      if s = "\x7b\"answer\": \"A\"\x7d" then some blockA else none
    fixQuotes := id
    searchQuestion := fun _ => none
    searchAnswer := fun _ => none
    searchWordLimit := fun _ => none
    searchMaxMarks := fun _ => none
    searchTotalMarks := fun _ => none
    searchFeedback := fun _ => none }

/-- A raw page wrapping the JSON in a markdown code fence. -/
def rawTier1 : String := "```json\n\x7b\"answer\": \"A\"\x7d\n```"

/-- A stdlib for the tier-3 case of interest: strict and repaired parses fail,
the numeric extractors find values, but neither `question` nor `answer`
matches. -/
def stdNumericOnly : CombineAnswer.Stdlib :=
  { jsonLoads := fun _ => none
    fixQuotes := id
    searchQuestion := fun _ => none
    searchAnswer := fun _ => none
    searchWordLimit := fun _ => some 150
    searchMaxMarks := fun _ => some 10
    searchTotalMarks := fun _ => none
    searchFeedback := fun _ => none }

/-- A fragment from which only the numeric fields are extractable. -/
def rawNumericOnly : String := "\"word_limit\": 150, \"maximum_marks\": 10"

/-- A 400004-character page, large enough that the token heuristic over five
pages exceeds the 100000 threshold. -/
def bigPage : String := String.mk (List.replicate 400004 'a')

/-- Five OCR pages whose estimated token count exceeds 100000. -/
def fivePages : List String := [bigPage, "b", "c", "d", "e"]

/-- A complete single-page record with `question`, `answer` and `feedback`. -/
def fullRecord : Block :=
  { question := some "Q", answer := some "A", feedback := some [["A", "good"]] }

/-- The single-page OCR text that decodes to `fullRecord`. -/
def fullPageText : String :=
  "\x7b\"question\": \"Q\", \"answer\": \"A\", \"feedback\": [[\"A\", \"good\"]]\x7d"

/-- An `extractJson` stub decoding exactly `fullPageText` to `fullRecord`, as
`re.search(r'\x7b.*\x7d')` + `json.loads` would. -/
def extractFull : String → Option Block :=
  fun s => if s = fullPageText then some fullRecord else none

/-- A verified workflow state carrying the single complete page. -/
def verifiedState : Agents.AgentState :=
  { ocr_texts := [fullPageText], is_relevant := true, has_valid_format := true,
    formatted_data := none, error := none, status := "verified" }

/-- Two parsed pages: the first omits `question`/`word_limit`/`maximum_marks`,
the second supplies them (the claim's "first page omits a field and a later
one supplies it"). -/
def laterSuppliedPages : List Block :=
  [{ answer := some "A" },
   { question := some "Q", word_limit := some 5, maximum_marks := some 7 }]

/-! Helper lemmas about the merge loops. -/

theorem append_ne_empty_left (s t : String) (h : s ≠ "") : s ++ t ≠ "" := by
  intro hc
  apply h
  have hd : s.data ++ t.data = ([] : List Char) := by
    have h2 := congrArg String.data hc
    simpa [String.data_append] using h2
  rcases List.append_eq_nil.mp hd with ⟨hs, _⟩
  cases s
  simp_all

theorem truthyStr_iff (s : String) : truthyStr s = true ↔ s ≠ "" := by
  simp [truthyStr]

theorem joinSep_glue (sep p a : String) (xs : List String) :
    joinSep sep ((p ++ sep ++ a) :: xs) = p ++ sep ++ joinSep sep (a :: xs) := by
  cases xs with
  | nil => rfl
  | cons y ys => simp [joinSep, String.append_assoc]

theorem foldl_appendAnswer_truthy (l : List Block) :
    ∀ acc : String, truthyStr acc = true →
      l.foldl Agents.appendAnswer acc = joinSep Agents.NEXT_PAGE_SEP (acc :: neAnswers l) := by
  induction l with
  | nil => intro acc _; rfl
  | cons b l ih =>
    intro acc hacc
    rw [List.foldl_cons]
    cases hb : b.answer with
    | none =>
      have hstep : Agents.appendAnswer acc b = acc := by
        simp [Agents.appendAnswer, hb]
      rw [hstep, ih acc hacc]
      simp [neAnswers, hb]
    | some a =>
      by_cases ha : truthyStr a = true
      · have hstep : Agents.appendAnswer acc b = acc ++ Agents.NEXT_PAGE_SEP ++ a := by
          simp [Agents.appendAnswer, hb, ha, hacc]
        have hacc2 : truthyStr (acc ++ Agents.NEXT_PAGE_SEP ++ a) = true := by
          rw [truthyStr_iff]
          exact append_ne_empty_left _ _
            (append_ne_empty_left _ _ ((truthyStr_iff acc).mp hacc))
        rw [hstep, ih _ hacc2]
        have hne : neAnswers (b :: l) = a :: neAnswers l := by
          simp [neAnswers, hb, ha]
        rw [hne, joinSep_glue]
        rfl
      · have hstep : Agents.appendAnswer acc b = acc := by
          simp [Agents.appendAnswer, hb, ha]
        rw [hstep, ih acc hacc]
        simp [neAnswers, hb, ha]

theorem foldl_appendAnswer_join (l : List Block) :
    l.foldl Agents.appendAnswer "" = joinSep Agents.NEXT_PAGE_SEP (neAnswers l) := by
  induction l with
  | nil => rfl
  | cons b l ih =>
    rw [List.foldl_cons]
    cases hb : b.answer with
    | none =>
      have hstep : Agents.appendAnswer "" b = "" := by
        simp [Agents.appendAnswer, hb]
      rw [hstep, ih]
      simp [neAnswers, hb]
    | some a =>
      by_cases ha : truthyStr a = true
      · have hstep : Agents.appendAnswer "" b = a := by
          simp [Agents.appendAnswer, hb, ha, truthyStr]
          exact fun h => h.symm
        rw [hstep, foldl_appendAnswer_truthy l a ha]
        have hne : neAnswers (b :: l) = a :: neAnswers l := by
          simp [neAnswers, hb, ha]
        rw [hne]
      · have hstep : Agents.appendAnswer "" b = "" := by
          simp [Agents.appendAnswer, hb, ha]
        rw [hstep, ih]
        simp [neAnswers, hb, ha]

/-- C1: for every sequence of parsed page records, the graph merge
(`Agents.merge_json_blocks`) produces as `answer` the forward-order
concatenation of every record's non-empty answer text, consecutive pages
joined by the separator `"\n\n--- NEXT PAGE ---\n\n"` (which carries the
page-boundary marker `--- NEXT PAGE ---`); the service-log merge
(`CombineAnswer.merge_json_blocks`) instead joins every present answer with
`"\n\n"` and no page marker. -/
theorem c1_merged_answer_concatenation (first_page : Block) (rest : List Block)
    (blocks : List Block) :
    (Agents.merge_core first_page rest).answer
      = joinSep Agents.NEXT_PAGE_SEP (neAnswers (first_page :: rest))
    ∧ (CombineAnswer.merge_parsed_blocks blocks).answer
      = [⟨String.intercalate "\n\n" (blocks.filterMap Block.answer)⟩] := by
  exact ⟨foldl_appendAnswer_join (first_page :: rest), rfl⟩

/-- C1 counterexample: the service-log merge on two pages whose records carry
answers `"A"` and `"B"` yields the joined answer `"A\n\nB"`, which is not the
separator-joined concatenation the claim requires. -/
theorem c1_counterexample :
    CombineAnswer.merge_json_blocks stdAB ["pageA", "pageB"]
      = Except.ok { question := "", word_limit := none, maximum_marks := none,
                    answer := [⟨"A\n\nB"⟩], feedback := [], total_marks := "0/0" }
    ∧ ("A\n\nB" : String) ≠ "A" ++ Agents.NEXT_PAGE_SEP ++ "B" := by
  exact ⟨rfl, by decide⟩

/-! Characterizations of the forward field scans of combine_answer.py. -/

theorem scanQuestion_stays (l : List Block) (q : String) (hq : truthyStr q = true) :
    l.foldl
      (fun q b => if b.question.isSome && !(truthyStr q) then b.question.getD "" else q) q
      = q := by
  induction l with
  | nil => rfl
  | cons b l ih =>
    rw [List.foldl_cons]
    have hstep : (if b.question.isSome && !(truthyStr q) then b.question.getD "" else q)
        = q := by simp [hq]
    rw [hstep]
    exact ih

theorem scanQuestion_find (l : List Block) (b : Block)
    (h : l.find? (fun x => truthyStr (x.question.getD "")) = some b) :
    CombineAnswer.scanQuestion l = b.question.getD "" := by
  induction l with
  | nil => simp at h
  | cons x l ih =>
    by_cases hp : truthyStr (x.question.getD "") = true
    · simp only [List.find?_cons, hp] at h
      have hxb : x = b := by simpa using h
      subst hxb
      have hs : x.question.isSome = true := by
        cases hq : x.question with
        | none => rw [hq] at hp; simp [truthyStr] at hp
        | some v => rfl
      unfold CombineAnswer.scanQuestion
      rw [List.foldl_cons]
      have hstep : (if x.question.isSome && !(truthyStr "") then x.question.getD "" else "")
          = x.question.getD "" := by simp [hs, truthyStr]
      rw [hstep]
      exact scanQuestion_stays l _ hp
    · have hp' : truthyStr (x.question.getD "") = false := by simpa using hp
      simp only [List.find?_cons, hp'] at h
      have hval : x.question.getD "" = "" := by
        by_contra hne
        exact hp ((truthyStr_iff _).mpr hne)
      unfold CombineAnswer.scanQuestion
      rw [List.foldl_cons]
      have hstep : (if x.question.isSome && !(truthyStr "") then x.question.getD "" else "")
          = "" := by
        by_cases hs : x.question.isSome = true
        · simp [hs, truthyStr, hval]
        · simp [hs]
      rw [hstep]
      exact ih h

theorem scanOptInt_stays (get : Block → Option Int) (l : List Block) (acc : Option Int)
    (h : acc.getD 0 ≠ 0) :
    l.foldl (fun acc b => if (get b).isSome && ((acc.getD 0) = 0) then get b else acc) acc
      = acc := by
  induction l with
  | nil => rfl
  | cons b l ih =>
    rw [List.foldl_cons]
    have hstep : (if (get b).isSome && ((acc.getD 0) = 0) then get b else acc) = acc := by
      simp [h]
    rw [hstep]
    exact ih

theorem scanOptInt_find (get : Block → Option Int) :
    ∀ (l : List Block) (b : Block),
      l.find? (fun x => truthyInt ((get x).getD 0)) = some b →
      ∀ acc : Option Int, acc.getD 0 = 0 →
        l.foldl (fun acc b => if (get b).isSome && ((acc.getD 0) = 0) then get b else acc) acc
          = get b := by
  intro l
  induction l with
  | nil => intro b h; simp at h
  | cons x l ih =>
    intro b h acc hacc
    rw [List.foldl_cons]
    by_cases hp : truthyInt ((get x).getD 0) = true
    · simp only [List.find?_cons, hp] at h
      have hxb : x = b := by simpa using h
      subst hxb
      have hs : (get x).isSome = true := by
        cases hq : get x with
        | none => rw [hq] at hp; simp [truthyInt] at hp
        | some v => rfl
      have hstep : (if (get x).isSome && ((acc.getD 0) = 0) then get x else acc) = get x := by
        simp [hs, hacc]
      rw [hstep]
      have hne : (get x).getD 0 ≠ 0 := by
        intro hc; rw [hc] at hp; simp [truthyInt] at hp
      exact scanOptInt_stays get l (get x) hne
    · have hp' : truthyInt ((get x).getD 0) = false := by simpa using hp
      simp only [List.find?_cons, hp'] at h
      have hval : (get x).getD 0 = 0 := by
        by_contra hne
        simp [truthyInt, hne] at hp'
      by_cases hs : (get x).isSome = true
      · have hstep : (if (get x).isSome && ((acc.getD 0) = 0) then get x else acc) = get x := by
          simp [hs, hacc]
        rw [hstep]
        exact ih b h (get x) hval
      · have hstep : (if (get x).isSome && ((acc.getD 0) = 0) then get x else acc) = acc := by
          simp [hs]
        rw [hstep]
        exact ih b h acc hacc

/-- C2: the service-log merge (`CombineAnswer.merge_json_blocks`) assigns
`question`, `word_limit` and `maximum_marks` each from the first record in
forward scan order that defines that field with a non-empty (truthy) value,
independently per field — in particular a later record's value is used when
the first record omits the field; the graph merge (`Agents.merge_json_blocks`)
instead takes all three fields from the first record only, so a later record's
value is never used. -/
theorem c2_first_found_wins (blocks : List Block) (first_page : Block) (rest : List Block) :
    (∀ b, blocks.find? (fun x => truthyStr (x.question.getD "")) = some b →
      (CombineAnswer.merge_parsed_blocks blocks).question = b.question.getD "")
    ∧ (∀ b, blocks.find? (fun x => truthyInt (x.word_limit.getD 0)) = some b →
      (CombineAnswer.merge_parsed_blocks blocks).word_limit = b.word_limit)
    ∧ (∀ b, blocks.find? (fun x => truthyInt (x.maximum_marks.getD 0)) = some b →
      (CombineAnswer.merge_parsed_blocks blocks).maximum_marks = b.maximum_marks)
    ∧ ((Agents.merge_core first_page rest).question
        = if truthyStr (first_page.question.getD "") then first_page.question else none)
    ∧ ((Agents.merge_core first_page rest).word_limit
        = if truthyInt (first_page.word_limit.getD 0) then first_page.word_limit else none)
    ∧ ((Agents.merge_core first_page rest).maximum_marks
        = if truthyInt (first_page.maximum_marks.getD 0) then first_page.maximum_marks
          else none) := by
  refine ⟨?_, ?_, ?_, ?_, ?_, ?_⟩
  · intro b h
    exact scanQuestion_find blocks b h
  · intro b h
    exact scanOptInt_find Block.word_limit blocks b h none rfl
  · intro b h
    exact scanOptInt_find Block.maximum_marks blocks b h none rfl
  · unfold Agents.merge_core
    cases hq : first_page.question with
    | none => simp [hq, truthyStr]
    | some v =>
      by_cases hv : v = ""
      · simp [hq, hv, truthyStr]
      · simp [hq, (truthyStr_iff v).mpr hv]
  · unfold Agents.merge_core
    cases hw : first_page.word_limit with
    | none => simp [hw, truthyInt]
    | some v =>
      by_cases hv : v = 0
      · simp [hw, hv, truthyInt]
      · have ht : truthyInt v = true := by simp [truthyInt, hv]
        simp [hw, ht, hv]
  · unfold Agents.merge_core
    cases hm : first_page.maximum_marks with
    | none => simp [hm, truthyInt]
    | some v =>
      by_cases hv : v = 0
      · simp [hm, hv, truthyInt]
      · have ht : truthyInt v = true := by simp [truthyInt, hv]
        simp [hm, ht, hv]

/-- C2 witness: on `laterSuppliedPages` the service-log merge takes `question`,
`word_limit` and `maximum_marks` from the second record, which is the first to
supply each field. -/
theorem c2_witness :
    (CombineAnswer.merge_parsed_blocks laterSuppliedPages).question = "Q"
    ∧ (CombineAnswer.merge_parsed_blocks laterSuppliedPages).word_limit = some 5
    ∧ (CombineAnswer.merge_parsed_blocks laterSuppliedPages).maximum_marks = some 7 := by
  refine ⟨?_, ?_, ?_⟩
  · exact (c2_first_found_wins laterSuppliedPages Block.empty []).1
      { question := some "Q", word_limit := some 5, maximum_marks := some 7 } (by decide)
  · exact (c2_first_found_wins laterSuppliedPages Block.empty []).2.1
      { question := some "Q", word_limit := some 5, maximum_marks := some 7 } (by decide)
  · exact (c2_first_found_wins laterSuppliedPages Block.empty []).2.2.1
      { question := some "Q", word_limit := some 5, maximum_marks := some 7 } (by decide)

/-- C2 counterexample: the graph merge on a first record that omits
`question`/`word_limit`/`maximum_marks` followed by a record that supplies
them omits all three fields instead of taking the later record's values. -/
theorem c2_counterexample :
    Agents.merge_core Block.empty
        [{ question := some "Q", word_limit := some 5, maximum_marks := some 7 }]
      = { question := none, answer := "", feedback := [], word_limit := none,
          maximum_marks := none, total_marks := none }
    ∧ (none : Option String) ≠ some "Q" := by
  exact ⟨rfl, by decide⟩

theorem findTotal_eq (l : List Block) :
    CombineAnswer.findTotal l
      = ((l.find? (fun b => b.total_marks.isSome)).bind Block.total_marks).getD "" := by
  induction l with
  | nil => rfl
  | cons b l ih =>
    cases hb : b.total_marks with
    | some v => simp [CombineAnswer.findTotal, List.find?_cons, hb]
    | none => simp [CombineAnswer.findTotal, List.find?_cons, hb, ih]

/-- C3: the service-log merge (`CombineAnswer.merge_json_blocks`) assigns
`total_marks` by scanning backward from the last record and taking the value
of the first record that defines the `total_marks` key at all (even with an
empty value), defaulting to `"0/0"` when that value is empty or no record has
the key; the graph merge (`Agents.merge_json_blocks`) consults only the last
record, taking its `total_marks` when non-empty and omitting the field
otherwise. -/
theorem c3_total_marks_scan (blocks : List Block) (first_page : Block) (rest : List Block) :
    ((CombineAnswer.merge_parsed_blocks blocks).total_marks
      = (let v := ((blocks.reverse.find? (fun b => b.total_marks.isSome)).bind
            Block.total_marks).getD "";
         if v = "" then "0/0" else v))
    ∧ ((Agents.merge_core first_page rest).total_marks
      = (let lv := (rest.getLastD first_page).total_marks.getD "";
         if lv = "" then none else some lv)) := by
  constructor
  · show CombineAnswer.final_total_marks blocks = _
    unfold CombineAnswer.final_total_marks
    rw [findTotal_eq]
    by_cases hv : ((blocks.reverse.find? (fun b => b.total_marks.isSome)).bind
        Block.total_marks).getD "" = ""
    · simp [hv, truthyStr]
    · simp [hv, (truthyStr_iff _).mpr hv]
  · have hsimp : (Agents.merge_core first_page rest).total_marks
        = (match (rest.getLastD first_page).total_marks with
          | some v => if truthyStr v then some v else none
          | none => none) := rfl
    rw [hsimp]
    cases htm : (rest.getLastD first_page).total_marks with
    | none => simp
    | some v =>
      by_cases hv : v = ""
      · simp [hv, truthyStr]
      · simp [hv, (truthyStr_iff v).mpr hv]

/-- C3 counterexample: with records `[total_marks "7/10", total_marks ""]` the
backward scan of the service-log merge stops at the last record because it has
the key, finds the empty value, and defaults to `"0/0"` — not the `"7/10"`
that taking the first non-empty value scanning backward would give. -/
theorem c3_counterexample :
    (CombineAnswer.merge_parsed_blocks
        [{ total_marks := some "7/10" }, { total_marks := some "" }]).total_marks = "0/0"
    ∧ ("0/0" : String) ≠ "7/10" := by
  exact ⟨rfl, by decide⟩

theorem foldl_appendAnswer_all_empty : ∀ (l : List Block),
    (∀ b ∈ l, b = Block.empty) → ∀ acc, l.foldl Agents.appendAnswer acc = acc := by
  intro l
  induction l with
  | nil => intro _ acc; rfl
  | cons b l ih =>
    intro hall acc
    rw [List.foldl_cons]
    have hb : b = Block.empty := hall b (List.mem_cons_self b l)
    subst hb
    have hstep : Agents.appendAnswer acc Block.empty = acc := rfl
    rw [hstep]
    exact ih (fun x hx => hall x (List.mem_cons_of_mem _ hx)) acc

theorem filterMap_feedback_all_empty : ∀ (l : List Block),
    (∀ b ∈ l, b = Block.empty) → l.filterMap Block.feedback = [] := by
  intro l
  induction l with
  | nil => intro _; rfl
  | cons b l ih =>
    intro hall
    have hb : b = Block.empty := hall b (List.mem_cons_self b l)
    subst hb
    rw [List.filterMap_cons]
    simp only [Block.empty]
    exact ih (fun x hx => hall x (List.mem_cons_of_mem _ hx))

theorem getLastD_mem : ∀ (l : List α) (a : α), l.getLastD a ∈ a :: l := by
  intro l
  induction l with
  | nil => intro a; simp
  | cons x xs ih =>
    intro a
    rw [List.getLastD_cons]
    exact List.mem_cons_of_mem a (ih x)

/-- C4: the graph merge (`Agents.merge_json_blocks`) is total on a non-empty
record sequence: over records none of which defines any recognized field (as
produced when every page failed structured extraction), it proceeds
structurally and returns a record with empty `answer`, empty `feedback` and
every other field omitted, without raising; the service-log merge
(`CombineAnswer.merge_json_blocks`) instead raises
`ValueError("No valid JSON blocks could be parsed.")` when every page fails to
parse. -/
theorem c4_graph_merge_total (blocks : List Block) (hne : blocks ≠ [])
    (hall : ∀ b ∈ blocks, b = Block.empty) :
    Agents.merge_json_blocks blocks
      = Except.ok { question := none, answer := "", feedback := [],
                    word_limit := none, maximum_marks := none, total_marks := none } := by
  cases blocks with
  | nil => exact absurd rfl hne
  | cons b bs =>
    have hb : b = Block.empty := hall b (List.mem_cons_self _ _)
    subst hb
    show Except.ok (Agents.merge_core Block.empty bs) = _
    have hans := foldl_appendAnswer_all_empty (Block.empty :: bs) hall ""
    have hfb := filterMap_feedback_all_empty (Block.empty :: bs) hall
    have hlast : bs.getLastD Block.empty = Block.empty := hall _ (getLastD_mem bs Block.empty)
    have hcore : Agents.merge_core Block.empty bs
        = { question := none,
            answer := List.foldl Agents.appendAnswer "" (Block.empty :: bs),
            feedback := (List.filterMap Block.feedback (Block.empty :: bs)).flatten,
            word_limit := none, maximum_marks := none,
            total_marks := match (bs.getLastD Block.empty).total_marks with
              | some v => if truthyStr v then some v else none
              | none => none } := rfl
    rw [hcore, hans, hfb, hlast]
    rfl

/-- C4 witness: merging the single all-fields-absent record succeeds with the
all-omitted output. -/
theorem c4_witness :
    (([Block.empty] : List Block) ≠ []
      ∧ ∀ b ∈ ([Block.empty] : List Block), b = Block.empty)
    ∧ Agents.merge_json_blocks [Block.empty]
        = Except.ok { question := none, answer := "", feedback := [],
                      word_limit := none, maximum_marks := none, total_marks := none } := by
  exact ⟨⟨by simp, fun b hb => by simpa using hb⟩,
    c4_graph_merge_total [Block.empty] (by simp) (fun b hb => by simpa using hb)⟩

/-- C4 counterexample: on an input in which the only page fails every parsing
tier, the service-log merge raises instead of returning a record. -/
theorem c4_counterexample :
    CombineAnswer.merge_json_blocks stdNone ["This page failed OCR entirely."]
      = Except.error "No valid JSON blocks could be parsed." := rfl

theorem ite_zero_ne_some_zero (w : Int) :
    (if w = 0 then (none : Option Int) else some w) ≠ some 0 := by
  by_cases h : w = 0 <;> simp [h]

theorem ite_truthy_ne_some_empty (q : String) :
    (if truthyStr q then some q else none) ≠ some "" := by
  by_cases h : q = "" <;> simp [truthyStr, h]

theorem matchTotal_ne_some_empty (o : Option String) :
    (match o with
      | some v => if truthyStr v then some v else none
      | none => (none : Option String)) ≠ some "" := by
  cases o with
  | none => simp
  | some v => by_cases h : v = "" <;> simp [truthyStr, h]

/-- C5: in the graph merge (`Agents.merge_json_blocks`), a field whose merged
value equals its zero-value/empty default (empty `question`, `word_limit` 0,
`maximum_marks` 0, empty/absent `total_marks`) is popped from the output and
never emitted as an empty placeholder; the service-log merge
(`CombineAnswer.merge_json_blocks`) instead always materializes every field,
emitting the placeholders `""` and `"0/0"`. -/
theorem c5_empty_defaults_omitted (first_page : Block) (rest : List Block) :
    (Agents.merge_core first_page rest).question ≠ some ""
    ∧ (Agents.merge_core first_page rest).word_limit ≠ some 0
    ∧ (Agents.merge_core first_page rest).maximum_marks ≠ some 0
    ∧ (Agents.merge_core first_page rest).total_marks ≠ some "" := by
  refine ⟨?_, ?_, ?_, ?_⟩
  · exact ite_truthy_ne_some_empty (first_page.question.getD "")
  · exact ite_zero_ne_some_zero _
  · exact ite_zero_ne_some_zero _
  · exact matchTotal_ne_some_empty _

/-- C5 counterexample: the service-log merge of a single answer-only page
emits `question` as the empty-string placeholder and `total_marks` as the
`"0/0"` sentinel — the fields are materialized in the output dict rather than
omitted (every `CombineMerged` field is always present, mirroring the dict
literal of combine_answer.py lines 164-171). -/
theorem c5_counterexample :
    CombineAnswer.merge_json_blocks stdAB ["pageA"]
      = Except.ok { question := "", word_limit := none, maximum_marks := none,
                    answer := [⟨"A"⟩], feedback := [], total_marks := "0/0" } := rfl

/-- C6: for every stdlib behaviour and every non-empty raw text whose cleaned
form (markdown code fences stripped, whitespace trimmed) is valid JSON —
`json.loads` decodes it to `j` — `parse_json_block` returns exactly that
decoded structure, i.e. the parse succeeds in tier 1 without consulting the
repair or regex tiers. -/
theorem c6_tier1_roundtrip (std : CombineAnswer.Stdlib) (raw : String) (j : Block)
    (_hne : raw ≠ "")
    (h : std.jsonLoads (CombineAnswer.clean_markdown_json raw) = some j) :
    CombineAnswer.parse_json_block std raw = some j := by
  simp only [CombineAnswer.parse_json_block, h]

/-- C6 witness: tier-1 round trip on the fenced page `rawTier1`, whose cleaned
form decodes to `blockA` under `stdTier1`. -/
theorem c6_witness :
    (rawTier1 ≠ ""
      ∧ stdTier1.jsonLoads (CombineAnswer.clean_markdown_json rawTier1) = some blockA)
    ∧ CombineAnswer.parse_json_block stdTier1 rawTier1 = some blockA := by
  exact ⟨⟨by decide, by decide⟩, c6_tier1_roundtrip stdTier1 rawTier1 blockA (by decide) (by decide)⟩

/-- C7: when tiers 1 and 2 both fail, the tier-3 regex extraction reports
success exactly when at least one of the `question`/`answer` extractors found
a value; in particular an input from which only the numeric or other fields
are extractable is reported as a parse failure. -/
theorem c7_tier3_requires_question_or_answer (std : CombineAnswer.Stdlib) (raw : String)
    (h1 : std.jsonLoads (CombineAnswer.clean_markdown_json raw) = none)
    (h2 : std.jsonLoads (std.fixQuotes (CombineAnswer.clean_markdown_json raw)) = none) :
    (CombineAnswer.parse_json_block std raw).isSome
      = ((std.searchAnswer (CombineAnswer.clean_markdown_json raw)).isSome
          || (std.searchQuestion (CombineAnswer.clean_markdown_json raw)).isSome) := by
  simp only [CombineAnswer.parse_json_block, h1, h2]
  by_cases hc : ((std.searchAnswer (CombineAnswer.clean_markdown_json raw)).isSome
      || (std.searchQuestion (CombineAnswer.clean_markdown_json raw)).isSome) = true
  · simp [hc]
  · simp only [Bool.not_eq_true] at hc
    simp [hc]

/-- C7 witness: under `stdNumericOnly` both strict tiers fail and only the
numeric extractors succeed on `rawNumericOnly`, so the parse is reported as a
failure even though `word_limit` and `maximum_marks` were extracted. -/
theorem c7_witness :
    CombineAnswer.parse_json_block stdNumericOnly rawNumericOnly = none
    ∧ (stdNumericOnly.searchWordLimit
        (CombineAnswer.clean_markdown_json rawNumericOnly)).isSome = true
    ∧ (stdNumericOnly.searchMaxMarks
        (CombineAnswer.clean_markdown_json rawNumericOnly)).isSome = true := by
  have h := c7_tier3_requires_question_or_answer stdNumericOnly rawNumericOnly rfl rfl
  refine ⟨?_, rfl, rfl⟩
  have h2 : (CombineAnswer.parse_json_block stdNumericOnly rawNumericOnly).isSome = false := by
    rw [h]; rfl
  exact Option.not_isSome_iff_eq_none.mp (by simp [h2])

theorem sublist_getD_single {α : Type} (d : α) : ∀ (l : List α) (i : Nat), i < l.length →
    [l.getD i d].Sublist l := by
  intro l
  induction l with
  | nil => intro i hi; simp at hi
  | cons x xs ih =>
    intro i hi
    cases i with
    | zero =>
      simp only [List.getD_cons_zero]
      exact (List.singleton_sublist).mpr (List.mem_cons_self x xs)
    | succ i =>
      simp only [List.getD_cons_succ]
      exact List.Sublist.cons x (ih i (by simpa using hi))

theorem sublist_getD_pair {α : Type} (d : α) : ∀ (l : List α) (i j : Nat), i < j →
    j < l.length → [l.getD i d, l.getD j d].Sublist l := by
  intro l
  induction l with
  | nil => intro i j _ hj; simp at hj
  | cons x xs ih =>
    intro i j hij hj
    cases i with
    | zero =>
      cases j with
      | zero => omega
      | succ j =>
        simp only [List.getD_cons_zero, List.getD_cons_succ]
        exact List.Sublist.cons₂ x (sublist_getD_single d xs j (by simpa using hj))
    | succ i =>
      cases j with
      | zero => omega
      | succ j =>
        simp only [List.getD_cons_succ]
        exact List.Sublist.cons x (ih i j (by omega) (by simpa using hj))

theorem sublist_getD_triple {α : Type} (d : α) : ∀ (l : List α) (i j k : Nat), i < j →
    j < k → k < l.length → [l.getD i d, l.getD j d, l.getD k d].Sublist l := by
  intro l
  induction l with
  | nil => intro i j k _ _ hk; simp at hk
  | cons x xs ih =>
    intro i j k hij hjk hk
    cases i with
    | zero =>
      cases j with
      | zero => omega
      | succ j =>
        cases k with
        | zero => omega
        | succ k =>
          simp only [List.getD_cons_zero, List.getD_cons_succ]
          exact List.Sublist.cons₂ x (sublist_getD_pair d xs j k (by omega) (by simpa using hk))
    | succ i =>
      cases j with
      | zero => omega
      | succ j =>
        cases k with
        | zero => omega
        | succ k =>
          simp only [List.getD_cons_succ]
          exact List.Sublist.cons x (ih i j k (by omega) (by omega) (by simpa using hk))

/-- C8: in the verification stage, whenever the estimated token count (total
character count divided by 4, floor) of a non-empty input exceeds 100000, the
input is reduced: with more than 3 pages it becomes exactly the first page,
the page at index `length / 2`, and the last page, in order (an
order-preserving sublist of the input); with at most 3 pages each page is
instead truncated to its first 25000 characters. -/
theorem c8_verification_downsampling (ocr_texts : List String)
    (hbig : ((ocr_texts.map String.length).sum) / 4 > 100000)
    (_hne : ocr_texts ≠ []) :
    (ocr_texts.length > 3 →
      Agents.reduce_ocr_texts ocr_texts
        = [ocr_texts.getD 0 "", ocr_texts.getD (ocr_texts.length / 2) "",
           ocr_texts.getD (ocr_texts.length - 1) ""]
      ∧ (Agents.reduce_ocr_texts ocr_texts).Sublist ocr_texts)
    ∧ (ocr_texts.length ≤ 3 →
      Agents.reduce_ocr_texts ocr_texts = ocr_texts.map (fun text => text.take 25000)) := by
  constructor
  · intro hlen
    have hred : Agents.reduce_ocr_texts ocr_texts
        = [ocr_texts.getD 0 "", ocr_texts.getD (ocr_texts.length / 2) "",
           ocr_texts.getD (ocr_texts.length - 1) ""] := by
      unfold Agents.reduce_ocr_texts
      rw [if_pos hbig, if_pos hlen]
      rfl
    refine ⟨hred, ?_⟩
    rw [hred]
    exact sublist_getD_triple "" ocr_texts 0 (ocr_texts.length / 2)
      (ocr_texts.length - 1) (by omega) (by omega) (by omega)
  · intro hlen
    unfold Agents.reduce_ocr_texts
    rw [if_pos hbig, if_neg (by omega)]

/-- C8 witness: on `fivePages` (over 400004 characters, estimated 100002
tokens) the reduction keeps exactly pages 0, 2 and 4. -/
theorem c8_witness :
    ((fivePages.map String.length).sum / 4 > 100000)
    ∧ (Agents.reduce_ocr_texts fivePages
        = [fivePages.getD 0 "", fivePages.getD (fivePages.length / 2) "",
           fivePages.getD (fivePages.length - 1) ""]
      ∧ (Agents.reduce_ocr_texts fivePages).Sublist fivePages) := by
  have hlen : bigPage.length = 400004 := by
    rw [show bigPage = String.mk (List.replicate 400004 'a') from rfl, String.length_mk,
      List.length_replicate]
  have h1 : fivePages.map String.length = [400004, 1, 1, 1, 1] := by
    simp only [fivePages, List.map_cons, List.map_nil, hlen]
    rfl
  have hbig : (fivePages.map String.length).sum / 4 > 100000 := by
    rw [h1]
    decide
  exact ⟨hbig, (c8_verification_downsampling fivePages hbig (by simp [fivePages])).1
    (by simp [fivePages])⟩

/-- C9: in the formatting stage, if verification passed, exactly one page of
OCR text is supplied, and that text's JSON block decodes to a record
containing all three of `question`, `answer` and `feedback`, then the
formatter returns that record unchanged as `formatted_data` with status
`"formatted"` and issues zero model calls. -/
theorem c9_single_page_shortcut
    (extractJson contentParse : String → Option Block)
    (llmFormat : String → Option String) (state : Agents.AgentState)
    (t : String) (b : Block)
    (hocr : state.ocr_texts = [t])
    (hrel : state.is_relevant = true) (hfmt : state.has_valid_format = true)
    (hparse : extractJson t = some b)
    (hq : b.question.isSome = true) (ha : b.answer.isSome = true)
    (hf : b.feedback.isSome = true) :
    Agents.data_formatter_agent extractJson contentParse llmFormat state
      = ({ state with formatted_data := some (Agents.FormattedData.page b),
                      status := "formatted" }, 0) := by
  have hshort : Agents.singleShortcut extractJson state.ocr_texts = some b := by
    rw [hocr]
    simp only [Agents.singleShortcut, hparse, hq, ha, hf]
    simp
  simp only [Agents.data_formatter_agent, hrel, hfmt, hshort]
  simp

/-- C9 witness: on `verifiedState` (single page `fullPageText`, verification
passed) the formatter emits `fullRecord` unchanged with zero model calls. -/
theorem c9_witness :
    Agents.data_formatter_agent extractFull (fun _ => none) (fun _ => none) verifiedState
      = ({ verifiedState with
            formatted_data := some (Agents.FormattedData.page fullRecord),
            status := "formatted" }, 0) := by
  exact c9_single_page_shortcut extractFull (fun _ => none) (fun _ => none) verifiedState
    fullPageText fullRecord rfl rfl rfl rfl rfl rfl rfl

theorem applyVerdict_status (state : Agents.AgentState) (v : Agents.Verdict) :
    ((Agents.applyVerdict state v).status = "verified"
      ∧ (Agents.applyVerdict state v).is_relevant = true
      ∧ (Agents.applyVerdict state v).has_valid_format = true)
    ∨ (Agents.applyVerdict state v).status = "failed_verification" := by
  by_cases hr : v.is_relevant.getD false = true
    <;> by_cases hf : v.has_valid_format.getD false = true
  · left; simp [Agents.applyVerdict, hr, hf]
  · right; simp [Agents.applyVerdict, hr, hf]
  · right; simp [Agents.applyVerdict, hr, hf]
  · right; simp [Agents.applyVerdict, hr, hf]

theorem verification_outcome_status (verdictParse : String → Agents.VerdictParse)
    (state : Agents.AgentState) (resp : Option String) :
    ((Agents.verification_outcome verdictParse state resp).status = "verified"
      ∧ (Agents.verification_outcome verdictParse state resp).is_relevant = true
      ∧ (Agents.verification_outcome verdictParse state resp).has_valid_format = true)
    ∨ (Agents.verification_outcome verdictParse state resp).status
        = "failed_verification" := by
  cases resp with
  | none => exact applyVerdict_status state _
  | some content =>
    cases hv : verdictParse content with
    | parsed v =>
      simp only [Agents.verification_outcome, hv]
      exact applyVerdict_status state v
    | noJson =>
      simp only [Agents.verification_outcome, hv]
      exact applyVerdict_status state _
    | raised e =>
      right
      simp [Agents.verification_outcome, hv]

theorem data_verification_status (llmVerify : String → Option String)
    (verdictParse : String → Agents.VerdictParse) (state : Agents.AgentState) :
    (((Agents.data_verification_agent llmVerify verdictParse state).1).status = "verified"
      ∧ ((Agents.data_verification_agent llmVerify verdictParse state).1).is_relevant = true
      ∧ ((Agents.data_verification_agent llmVerify verdictParse state).1).has_valid_format
          = true)
    ∨ ((Agents.data_verification_agent llmVerify verdictParse state).1).status
        = "failed_verification" := by
  by_cases he : state.ocr_texts.isEmpty = true
  · right
    simp [Agents.data_verification_agent, he]
  · have hred : Agents.data_verification_agent llmVerify verdictParse state
        = (Agents.verification_outcome verdictParse state
            (llmVerify (Agents.combined_for_verification
              (Agents.reduce_ocr_texts state.ocr_texts))), 1) := by
      simp [Agents.data_verification_agent, he]
    rw [hred]
    exact verification_outcome_status verdictParse state _

theorem data_formatter_status (extractJson contentParse : String → Option Block)
    (llmFormat : String → Option String) (state : Agents.AgentState)
    (hrel : state.is_relevant = true) (hfmt : state.has_valid_format = true) :
    ((Agents.data_formatter_agent extractJson contentParse llmFormat state).1).status
        = "formatted"
    ∨ ((Agents.data_formatter_agent extractJson contentParse llmFormat state).1).status
        = "failed_formatting" := by
  simp only [Agents.data_formatter_agent, hrel, hfmt]
  simp only [Bool.not_true, Bool.or_self, Bool.false_eq_true, if_false]
  split
  · left; rfl
  · split
    · left; rfl
    · split
      · right; rfl
      · split
        · right; rfl
        · left; rfl

theorem decide_next_step_formatter (state : Agents.AgentState) :
    Graph.decide_next_step state = "data_formatter" ↔ state.status = "verified" := by
  unfold Graph.decide_next_step
  by_cases hs : state.status = "verified"
  · simp [hs]
  · rw [if_neg hs]
    constructor
    · intro hc
      exfalso
      by_cases h2 : state.status = "failed_verification" ∨ state.status = "failed_formatting"
          ∨ state.status = "formatted"
      · rw [if_pos h2] at hc
        exact absurd hc (by decide)
      · rw [if_neg h2] at hc
        exact absurd hc (by decide)
    · intro hc
      exact absurd hc hs

/-- C10: in the compiled workflow, the terminal status `"skipped_formatting"`
is unreachable: for every model behaviour, every response-parsing behaviour
and every initial state, the state returned by the workflow never has that
status — verification only emits `"verified"` (with both booleans true) or
`"failed_verification"`, the formatter is entered only on `"verified"`, and
with both booleans true its skipping branch cannot execute. -/
theorem c10_skipped_formatting_unreachable
    (llmVerify : String → Option String) (verdictParse : String → Agents.VerdictParse)
    (extractJson contentParse : String → Option Block)
    (llmFormat : String → Option String) (state : Agents.AgentState) :
    ((Graph.run_workflow llmVerify verdictParse extractJson contentParse llmFormat
        state).1).status ≠ "skipped_formatting" := by
  simp only [Graph.run_workflow]
  rcases data_verification_status llmVerify verdictParse state with ⟨hs, hr, hf⟩ | hs
  · rw [if_pos ((decide_next_step_formatter _).mpr hs)]
    rcases data_formatter_status extractJson contentParse llmFormat _ hr hf with h | h
    · simp only [h]
      decide
    · simp only [h]
      decide
  · have hd : ¬ (Graph.decide_next_step
        (Agents.data_verification_agent llmVerify verdictParse state).1 = "data_formatter") := by
      intro hc
      rw [(decide_next_step_formatter _).mp hc] at hs
      exact absurd hs (by decide)
    rw [if_neg hd, hs]
    decide
